import Mathlib

/-!
Verification development for the ScarMapper scar-calling engine.

Shallow embedding of the Python sources:
  `scarmapper.py` (orchestrator `main`),
  `scarmapper/INDEL_Processing.py` (`ScarSearch`, `DataProcessing`).

DNA sequences are embedded as `List Char`; Python slices `s[a:b]` (with
non-negative bounds, as in every embedded code path) become `pySlice`.
Python ints are embedded as `Int` where subtraction matters and `Nat` where
the source value is a length or a counter.  Float division in report cells
is embedded as rational division.

Two helper functions of the `Valkyries.Sequence_Magic` module are imported
by the source but the module itself is not part of the repository snapshot;
they are modelled from the specification (see `complement`, `rcomp`,
`match_maker`).  Likewise `SlidingWindow.sliding_window` (the window
classifier) is absent; its result, a per-read scar tuple, is embedded as
the abstract `SubList` record and classification is passed as a function
argument where needed.
-/

namespace ScarMapper

/-- Python slice `s[a:b]` for `0 ≤ a ≤ b` (the only shape used by the
embedded code paths). -/
def pySlice {α : Type} (s : List α) (a b : Nat) : List α :=
  (s.drop a).take (b - a)

/-- Modelled from the spec: `Sequence_Magic.rcomp`'s base complement is not in
the repository snapshot; spec §4.1 requires a total function over
A, C, G, T plus ambiguity code N, with other characters passed through. -/
def complement : Char → Char
  | 'A' => 'T'
  | 'T' => 'A'
  | 'C' => 'G'
  | 'G' => 'C'
  | c => c

/-- Modelled from the spec: `Sequence_Magic.rcomp` is not in the repository
snapshot; spec §4.1 defines it as the reverse complement of a DNA string. -/
def rcomp (seq : List Char) : List Char :=
  (seq.map complement).reverse

/-- Modelled from the spec: `Sequence_Magic.match_maker` is not in the
repository snapshot; spec §4.1 defines the mismatch comparator as the
position-wise Hamming distance over the overlapping length. -/
def match_maker (expected observed : List Char) : Nat :=
  ((expected.zip observed).filter (fun p => p.1 != p.2)).length

/-- First index at or after `start`, among the next `fuel` values, where the
scan predicate holds.  Embeds the source's ascending `while` loops that stop
at the first hit (`simple_consensus` inner loop, `cutsite_search` loop,
`templated_insertion_search` right-template loop). -/
def findFirstIdx (p : Nat → Bool) : Nat → Nat → Option Nat
  | _, 0 => none
  | start, fuel + 1 =>
    if p start then some start else findFirstIdx p (start + 1) fuel

/-- First index at or below `pos`, among the next `fuel` values going down,
where the scan predicate holds.  Embeds the source's descending `while`
loops that stop at the first hit (`simple_consensus` outer loop). -/
def downSearch (p : Nat → Bool) : Nat → Nat → Option Nat
  | _, 0 => none
  | pos, fuel + 1 =>
    if p pos then some pos else downSearch p (pos - 1) fuel

/-! ### `DataProcessing.__init__` positional binding (claim C2)

`scarmapper.py:108` constructs
`DataProcessing(log, args, run_start, fq1, fq2, targetmapper.targets)`
against the parameter list of `INDEL_Processing.py:603`,
`def __init__(self, log, args, run_start, version, targeting, fq1=None, fq2=None)`.
The binding of positional arguments with two trailing defaults is embedded
over an arbitrary value type `α`. -/

/-- The attributes `DataProcessing.__init__` stores its parameters into
(`INDEL_Processing.py:602-619`); `fq1`/`fq2` default to `None`, embedded as
`Option`. -/
structure DataProcessingInit (α : Type) where
  log : α
  args : α
  run_start : α
  version : α
  targeting : α
  fq1 : Option α
  fq2 : Option α
  deriving DecidableEq, Repr

/-- Python positional-argument binding for the signature
`(log, args, run_start, version, targeting, fq1=None, fq2=None)`:
five to seven positional arguments are accepted, anything else is a
`TypeError` (`none`). -/
def dataProcessingCall {α : Type} : List α → Option (DataProcessingInit α)
  | [log, args, run_start, version, targeting] =>
    some ⟨log, args, run_start, version, targeting, none, none⟩
  | [log, args, run_start, version, targeting, a6] =>
    some ⟨log, args, run_start, version, targeting, some a6, none⟩
  | [log, args, run_start, version, targeting, a6, a7] =>
    some ⟨log, args, run_start, version, targeting, some a6, some a7⟩
  | _ => none

/-- The call site `scarmapper.py:108`:
`DataProcessing(log, args, run_start, fq1, fq2, targetmapper.targets)`,
six positional arguments in this order. -/
def mainIndelProcessingCall {α : Type} (log args run_start fq1 fq2 targets : α) :
    Option (DataProcessingInit α) :=
  dataProcessingCall [log, args, run_start, fq1, fq2, targets]

/-! ### Repair-pathway bucket assignment (claim C3)

`ScarSearch.frequency_output`, `INDEL_Processing.py:333-378`: `scar_type`
starts as `"Other"` and the `if/elif` chain overwrites it on the first
matching condition. -/

/-- The scar-type label chosen by the `if/elif` chain of
`INDEL_Processing.py:350-378` for one unique frequency-table entry. -/
def scar_type (tag : String) (del_size microhomology_size ins_size : Nat) : String :=
  if tag = "HR" then "HR"
  else if 4 ≤ del_size ∧ 2 ≤ microhomology_size then "TsEJ"
  else if del_size < 4 ∧ ins_size < 5 then "NHEJ"
  else if 4 ≤ del_size ∧ microhomology_size < 2 ∧ ins_size < 5 then "Non-MH Deletion"
  else if 5 ≤ ins_size then "Insertion"
  else "Other"

/-! ### Per-library summary counters and report fractions (claims C1, C9)

`summary_data` semantics per the source's own comment
(`INDEL_Processing.py:216-226`): `[1]` reads passing all filters,
`[6][0]` no-junction count, `[6][1]` no-cut count. -/

/-- The `summary_data` fields used by the report denominators:
`summary_data[1]`, `summary_data[6][0]`, `summary_data[6][1]`. -/
structure SummaryData where
  passingFilters : Nat
  noJunction : Nat
  noCut : Nat
  deriving DecidableEq, Repr

/-- `INDEL_Processing.py:313-316`: the frequency of one unique row,
`key_count / (summary_data[1] - summary_data[6][1])`, with the
`ZeroDivisionError` handler yielding `0`. -/
def key_frequency (sd : SummaryData) (key_count : Nat) : ℚ :=
  if (sd.passingFilters : ℤ) - (sd.noCut : ℤ) = 0 then 0
  else (key_count : ℚ) / ((sd.passingFilters : ℚ) - (sd.noCut : ℚ))

/-- Claim C1's stated frequency, built from the spec sentence
"event count ... as a fraction of (passing-filter reads minus no-junction
and no-cut-evidence reads)", for comparison with `key_frequency`. -/
def spec_key_frequency (sd : SummaryData) (key_count : Nat) : ℚ :=
  (key_count : ℚ) /
    ((sd.passingFilters : ℚ) - (sd.noJunction : ℚ) - (sd.noCut : ℚ))

/-- A numeric report field: either a number or the literal not-a-number
marker `'nan'` written by `DataProcessing.data_output`. -/
inductive ReportCell where
  | num (q : ℚ)
  | nan
  deriving DecidableEq, Repr

/-- `INDEL_Processing.py:1130`: the corpus-summary denominator
`cut = passing_filters - summary_data[6][1] - summary_data[6][0]`. -/
def cut_count (sd : SummaryData) : ℤ :=
  (sd.passingFilters : ℤ) - (sd.noCut : ℤ) - (sd.noJunction : ℤ)

/-- `INDEL_Processing.py:1141-1144`: `cut_fraction = cut/passing_filters`
guarded by a `ZeroDivisionError` handler that writes `'nan'`. -/
def cut_fraction_cell (cut : ℤ) (passing_filters : Nat) : ReportCell :=
  if passing_filters = 0 then .nan
  else .num ((cut : ℚ) / (passing_filters : ℚ))

/-- `INDEL_Processing.py:1162-1173`: each repair-pathway fraction
`bucket_count / cut`, written as `'nan'` when `cut == 0`. -/
def pathway_fraction_cell (bucket_count : Nat) (cut : ℤ) : ReportCell :=
  if cut = 0 then .nan
  else .num ((bucket_count : ℚ) / (cut : ℚ))

/-- The frequency column of the per-library frequency report: always the
number produced by `key_frequency` (`INDEL_Processing.py:380-383` writes
`key_frequency` unconditionally). -/
def frequency_cell (sd : SummaryData) (key_count : Nat) : ReportCell :=
  .num (key_frequency sd key_count)

/-! ### Consensus construction and the per-read pipeline (claims C7, C8)

`ScarSearch.simple_consensus`, `INDEL_Processing.py:103-136`, and the
per-read body of `ScarSearch.data_processing`, `INDEL_Processing.py:188-256`. -/

/-- `ScarSearch.simple_consensus`: reverse-complement read 2, then scan the
7-nt suffix windows of read 1 (outer loop, descending from
`len(left_seq) - 7` while the position exceeds `25`) against the windows of
the reverse-complemented read 2 (inner loop, ascending from `0` while the
window end stays below `len(right_seq) - 25`); on the first exact match,
return `left_seq + rt_seq[match_end:]`, otherwise the empty sequence. -/
def simple_consensus (left_seq right_seq : List Char) : List Char :=
  let rt_seq := rcomp right_seq
  let right_limit := right_seq.length - 25
  let window_size := 7
  let innerAt : Nat → Option Nat := fun pos =>
    findFirstIdx
      (fun l => pySlice left_seq pos (pos + window_size) == pySlice rt_seq l (l + window_size))
      0 (right_limit - window_size)
  match downSearch (fun pos => (innerAt pos).isSome)
      (left_seq.length - window_size) (left_seq.length - 32) with
  | none => []
  | some pos =>
    match innerAt pos with
    | none => []
    | some l => left_seq ++ rt_seq.drop (l + window_size)

/-- The scar tuple `sub_list` returned by `SlidingWindow.sliding_window` for
one consensus read (`INDEL_Processing.py:240-248`): indices `[0]` left
deletion, `[1]` right deletion, `[2]` insertion, `[3]` microhomology,
`[4]` consensus, `[5]`/`[6]` consensus left/right junction, `[7]`/`[8]`
reference left/right junction, `[9]` category tag.  The producing module is
not in the repository snapshot, so the record is kept abstract. -/
structure SubList where
  lftDel : List Char
  rtDel : List Char
  insertion : List Char
  microhomology : List Char
  consensus : List Char
  consensusLftJunction : ℤ
  consensusRtJunction : ℤ
  refLftJunction : ℤ
  refRtJunction : ℤ
  tag : String
  deriving DecidableEq, Repr

/-- The filter counters touched by one loop iteration of
`ScarSearch.data_processing`: `summary_data[1]` (passing),
`summary_data[7][0]` (N-fraction or too-short filter),
`summary_data[7][1]` (failed consensus creation). -/
structure ReadCounters where
  passing : Nat
  filteredShortN : Nat
  consensusFail : Nat
  deriving DecidableEq, Repr

/-- One iteration of the read loop of `ScarSearch.data_processing`
(`INDEL_Processing.py:188-239`, non-PEAR path): build the consensus; an
empty consensus bumps `summary_data[7][1]` and skips the read; a consensus
over the N limit or at most the minimum length bumps `summary_data[7][0]`
and skips the read; otherwise the read passes (`summary_data[1] += 1`) and
is classified.  The classifier (`SlidingWindow.sliding_window`, absent from
the snapshot) is a function argument.  The function is total: no branch
raises. -/
def processRead (n_limit : ℚ) (minimum_length : Nat)
    (classify : List Char → Option SubList) (c : ReadCounters)
    (left_seq right_seq : List Char) : ReadCounters × Option SubList :=
  let consensus_seq := simple_consensus left_seq right_seq
  if consensus_seq = [] then
    ({ c with consensusFail := c.consensusFail + 1 }, none)
  else if n_limit < ((consensus_seq.count 'N' : ℚ) / (consensus_seq.length : ℚ)) then
    ({ c with filteredShortN := c.filteredShortN + 1 }, none)
  else if consensus_seq.length ≤ minimum_length then
    ({ c with filteredShortN := c.filteredShortN + 1 }, none)
  else
    ({ c with passing := c.passing + 1 }, classify consensus_seq)

/-- `INDEL_Processing.py:248`: the frequency-table key
`"{}|{}|{}|{}|{}".format(sub_list[0], sub_list[1], sub_list[2],
sub_list[3], sub_list[9])`. -/
def freq_key (s : SubList) : String :=
  String.mk s.lftDel ++ "|" ++ String.mk s.rtDel ++ "|" ++
    String.mk s.insertion ++ "|" ++ String.mk s.microhomology ++ "|" ++ s.tag

/-- `INDEL_Processing.py:253-256`: fold one scar tuple into
`results_freq_dict` — an existing key gets its count (`[0]`) incremented,
a new key stores `[1, sub_list]`.  The insertion-ordered Python dict is
embedded as an association list. -/
def freqDictInsert (d : List (String × Nat × SubList)) (s : SubList) :
    List (String × Nat × SubList) :=
  if (d.find? (fun e => e.1 == freq_key s)).isSome then
    d.map (fun e => if e.1 == freq_key s then (e.1, e.2.1 + 1, e.2.2) else e)
  else
    d ++ [(freq_key s, 1, s)]

/-! ### Report rows (claim C6)

`ScarSearch.frequency_output`, `INDEL_Processing.py:318-348`, and
`ScarSearch.raw_data_output`, `INDEL_Processing.py:461-490`. -/

/-- The per-entry numeric and sequence columns shared by the frequency and
raw-data reports. -/
structure OutputRow where
  lftDel : Nat
  rtDel : Nat
  delSize : Nat
  microhomology : List Char
  microhomologySize : Nat
  insertion : List Char
  insSize : Nat
  consensus : List Char
  consensusLftJunction : ℤ
  consensusRtJunction : ℤ
  refLftJunction : ℤ
  refRtJunction : ℤ
  targetSequence : List Char
  deriving DecidableEq, Repr

/-- `INDEL_Processing.py:318-348`: the columns of one frequency-report row.
Sizes are taken before the reverse-strand branch, which then swaps the
left/right deletion labels, reverse-complements the sequences and remaps
the junctions (`target_dict[target_name][5] == "YES"`). -/
def freq_row (reverse_strand : Bool) (target_region : List Char) (s : SubList) : OutputRow :=
  let lft_del := s.lftDel.length
  let rt_del := s.rtDel.length
  let insertion := s.insertion
  let ins_size := insertion.length
  let consensus := s.consensus
  let microhomology := s.microhomology
  let microhomology_size := microhomology.length
  let del_size := lft_del + rt_del + microhomology_size
  if reverse_strand then
    { lftDel := rt_del, rtDel := lft_del, delSize := del_size,
      microhomology := rcomp microhomology, microhomologySize := microhomology_size,
      insertion := rcomp insertion, insSize := ins_size,
      consensus := rcomp consensus,
      consensusLftJunction := ((rcomp consensus).length : ℤ) - s.consensusRtJunction,
      consensusRtJunction := ((rcomp consensus).length : ℤ) - s.consensusLftJunction,
      refLftJunction := (target_region.length : ℤ) - s.refRtJunction,
      refRtJunction := (target_region.length : ℤ) - s.refLftJunction,
      targetSequence := rcomp target_region }
  else
    { lftDel := lft_del, rtDel := rt_del, delSize := del_size,
      microhomology := microhomology, microhomologySize := microhomology_size,
      insertion := insertion, insSize := ins_size,
      consensus := consensus,
      consensusLftJunction := s.consensusLftJunction,
      consensusRtJunction := s.consensusRtJunction,
      refLftJunction := s.refLftJunction,
      refRtJunction := s.refRtJunction,
      targetSequence := target_region }

/-- `INDEL_Processing.py:461-490`: the columns of one raw-data row, computed
by the same steps as the frequency row (sizes before the reverse-strand
swap). -/
def raw_row (reverse_strand : Bool) (target_region : List Char) (s : SubList) : OutputRow :=
  let lft_del := s.lftDel.length
  let rt_del := s.rtDel.length
  let microhomology := s.microhomology
  let del_size := lft_del + rt_del + microhomology.length
  let total_ins := s.insertion
  let ins_size := total_ins.length
  let consensus := s.consensus
  if reverse_strand then
    { lftDel := rt_del, rtDel := lft_del, delSize := del_size,
      microhomology := rcomp microhomology, microhomologySize := (rcomp microhomology).length,
      insertion := rcomp total_ins, insSize := ins_size,
      consensus := rcomp consensus,
      consensusLftJunction := ((rcomp consensus).length : ℤ) - s.consensusRtJunction,
      consensusRtJunction := ((rcomp consensus).length : ℤ) - s.consensusLftJunction,
      refLftJunction := (target_region.length : ℤ) - s.refRtJunction,
      refRtJunction := (target_region.length : ℤ) - s.refLftJunction,
      targetSequence := rcomp target_region }
  else
    { lftDel := lft_del, rtDel := rt_del, delSize := del_size,
      microhomology := microhomology, microhomologySize := microhomology.length,
      insertion := total_ins, insSize := ins_size,
      consensus := consensus,
      consensusLftJunction := s.consensusLftJunction,
      consensusRtJunction := s.consensusRtJunction,
      refLftJunction := s.refLftJunction,
      refRtJunction := s.refRtJunction,
      targetSequence := target_region }

/-- `INDEL_Processing.py:492-494`: a raw-data row is written only when the
read is altered (`del_size == 0 and ins_size == 0` rows are skipped). -/
def raw_row_written (r : OutputRow) : Bool :=
  !(r.delSize == 0 && r.insSize == 0)

/-! ### Index resolution (claim C5)

`DataProcessing.index_matching`, `INDEL_Processing.py:1011-1068`.  The
extraction of the observed index tokens from the read (header fields for
Illumina, read ends for Ramsden) is FASTQ plumbing; the embedding takes the
two observed tokens as inputs and keeps the candidate iteration, the
mismatch test and the counter updates from the source. -/

/-- One manifest entry as `index_matching` reads it:
`index_dict[index_key][0]` (compared as `left_match`) and
`index_dict[index_key][2]` (compared as `right_match`). -/
structure IndexRecord where
  name : String
  leftIndex : List Char
  rightIndex : List Char
  deriving DecidableEq, Repr

/-- `INDEL_Processing.py:1023-1025`: the mismatch threshold, `1` unless the
platform is `"Ramsden"`, then `3`. -/
def indexMismatchLimit (platform : String) : Nat :=
  if platform = "Ramsden" then 3 else 1

/-- `INDEL_Processing.py:1027-1061`: iterate the manifest-ordered candidates
and accept the first whose two mismatch counts are both at or below the
threshold (`left_match <= mismatch and right_match <= mismatch`, then
`break`). -/
def index_matching (platform : String) (index_dict : List IndexRecord)
    (obsLeft obsRight : List Char) : Option IndexRecord :=
  let mismatch := indexMismatchLimit platform
  index_dict.find? (fun r =>
    decide (match_maker r.leftIndex obsLeft ≤ mismatch) &&
    decide (match_maker r.rightIndex obsRight ≤ mismatch))

/-- `INDEL_Processing.py:1063-1066`: when no candidate matched, the
`'unidentified'` counter is incremented; a match leaves it unchanged. -/
def unidentified_after (result : Option IndexRecord) (unidentified : Nat) : Nat :=
  match result with
  | some _ => unidentified
  | none => unidentified + 1

/-! ### Cutsite search and the library pipeline (claims C4, C10)

`ScarSearch.cutsite_search`, `INDEL_Processing.py:503-539`, and the worker
pipeline `ScarSearch.data_processing` / `DataProcessing.main_loop`. -/

/-- `ScarSearch.cutsite_search`: scan windows of the guide's length from the
left (`rt_position` strictly below `len(target_region) - 1`) for the first
exact occurrence of the working guide (the reverse complement when the
locus is annotated reverse-strand); the cutsite is `rt_position - 3`
(forward) or `lft_position + 3` (reverse).  No occurrence raises
`SystemExit(1)`, embedded as `Except.error 1`. -/
def cutsite_search (target_region sgrna : List Char) (reverse_strand : Bool) :
    Except Nat Nat :=
  let working_sgrna := if reverse_strand then rcomp sgrna else sgrna
  let upper_limit := target_region.length - 1
  match findFirstIdx
      (fun l => pySlice target_region l (l + sgrna.length) == working_sgrna)
      0 (upper_limit - sgrna.length) with
  | some l => .ok (if reverse_strand then l + 3 else l + sgrna.length - 3)
  | none => .error 1

/-- One unit of work handed to a `ScarSearch` worker: the fetched target
region, the guide, the strand flag and the library's demultiplexed read
pairs. -/
structure Library where
  target_region : List Char
  sgrna : List Char
  reverse_strand : Bool
  reads : List (List Char × List Char)
  deriving Repr

/-- The per-library run of `ScarSearch.data_processing`
(`INDEL_Processing.py:138-267`, non-PEAR path): locate the cutsite — a
failure there propagates and nothing is written for the library — then fold
every read pair through the consensus/filter/classify step and accumulate
the frequency table that `frequency_output` writes. -/
def process_library (n_limit : ℚ) (minimum_length : Nat)
    (classify : List Char → Option SubList) (lib : Library) :
    Except Nat (List (String × Nat × SubList)) :=
  match cutsite_search lib.target_region lib.sgrna lib.reverse_strand with
  | .error e => .error e
  | .ok _ =>
    .ok (lib.reads.foldl
      (fun acc rd =>
        let step := processRead n_limit minimum_length classify acc.1 rd.1 rd.2
        match step.2 with
        | some s => (step.1, freqDictInsert acc.2 s)
        | none => (step.1, acc.2))
      (⟨0, 0, 0⟩, [])).2

/-- `DataProcessing.main_loop` fan-out (`INDEL_Processing.py:857-883`): every
library is one unit of work; an exception escaping any unit aborts the whole
run before the corpus summary is produced. -/
def process_all_libraries (n_limit : ℚ) (minimum_length : Nat)
    (classify : List Char → Option SubList) :
    List Library → Except Nat (List (List (String × Nat × SubList)))
  | [] => .ok []
  | lib :: rest =>
    match process_library n_limit minimum_length classify lib with
    | .error e => .error e
    | .ok table =>
      match process_all_libraries n_limit minimum_length classify rest with
      | .error e => .error e
      | .ok tables => .ok (table :: tables)

/-! ### Concrete instances used by the witnesses -/

/-- A 200-nt forward-strand target region with the guide placed at offset 90
(spec §8 scenario). -/
def exRegion : List Char :=
  List.replicate 90 'G' ++ "ACGTACGT".toList ++ List.replicate 102 'C'

/-- The 8-nt guide of the spec §8 scenario. -/
def exGuide : List Char := "ACGTACGT".toList

/-- A trimmed read 1 with no 7-nt overlap against `exRightRead`. -/
def exLeftRead : List Char := List.replicate 40 'A'

/-- A trimmed read 2 whose reverse complement shares no 7-nt window with
`exLeftRead`. -/
def exRightRead : List Char := List.replicate 40 'C'

/-- A concrete scar tuple. -/
def exScar : SubList :=
  ⟨"AC".toList, "G".toList, [], "TT".toList, "ACGT".toList, 1, 2, 3, 4, ""⟩

/-- A scar tuple with the same five key fields as `exScar` but different
junction offsets and consensus. -/
def exScar2 : SubList :=
  ⟨"AC".toList, "G".toList, [], "TT".toList, "ACGA".toList, 9, 9, 9, 9, ""⟩

/-- A manifest-first index candidate at one mismatch from the observed
tokens. -/
def exIdxA : IndexRecord := ⟨"idx1", "AAAT".toList, "CCCC".toList⟩

/-- A later index candidate at zero mismatches from the observed tokens. -/
def exIdxB : IndexRecord := ⟨"idx2", "AAAA".toList, "CCCC".toList⟩

/-- An index candidate far outside the mismatch threshold. -/
def exIdxC : IndexRecord := ⟨"idx3", "GGGG".toList, "GGGG".toList⟩

/-- Observed left index token. -/
def exObsLeft : List Char := "AAAA".toList

/-- Observed right index token. -/
def exObsRight : List Char := "CCCC".toList

/-- A library whose guide does not occur in its fetched target region. -/
def exBadLib : Library := ⟨List.replicate 10 'A', "CGT".toList, false, []⟩

/-! ## Helper lemmas about the loop embeddings -/

/-- An ascending first-hit scan finds nothing when the predicate fails on
every scanned position. -/
theorem findFirstIdx_eq_none (p : Nat → Bool) :
    ∀ (fuel start : Nat), (∀ k < fuel, p (start + k) = false) →
      findFirstIdx p start fuel = none := by
  intro fuel
  induction fuel with
  | zero => intro start _; rfl
  | succ f ih =>
    intro start h
    have h0 : p start = false := by simpa using h 0 (Nat.succ_pos f)
    simp only [findFirstIdx, h0, Bool.false_eq_true, if_false]
    exact ih (start + 1) fun k hk => by
      have := h (k + 1) (by omega)
      simpa [Nat.add_assoc, Nat.add_comm 1 k] using this

/-- An ascending first-hit scan returns the first position where the
predicate holds. -/
theorem findFirstIdx_eq_some (p : Nat → Bool) :
    ∀ (fuel k start : Nat), k < fuel → p (start + k) = true →
      (∀ j < k, p (start + j) = false) →
      findFirstIdx p start fuel = some (start + k) := by
  intro fuel
  induction fuel with
  | zero => intro k start hk; omega
  | succ f ih =>
    intro k start hk hpk hj
    cases k with
    | zero =>
      simp only [Nat.add_zero] at hpk
      simp [findFirstIdx, hpk]
    | succ k' =>
      have h0 : p start = false := by simpa using hj 0 (Nat.succ_pos k')
      simp only [findFirstIdx, h0, Bool.false_eq_true, if_false]
      have := ih k' (start + 1) (by omega)
        (by simpa [Nat.add_assoc, Nat.add_comm 1 k'] using hpk)
        (fun j hjlt => by
          have := hj (j + 1) (by omega)
          simpa [Nat.add_assoc, Nat.add_comm 1 j] using this)
      simpa [Nat.add_assoc, Nat.add_comm 1 k'] using this

/-- A descending first-hit scan finds nothing when the predicate fails on
every scanned position. -/
theorem downSearch_eq_none (p : Nat → Bool) :
    ∀ (fuel pos : Nat), (∀ k < fuel, p (pos - k) = false) →
      downSearch p pos fuel = none := by
  intro fuel
  induction fuel with
  | zero => intro pos _; rfl
  | succ f ih =>
    intro pos h
    have h0 : p pos = false := by simpa using h 0 (Nat.succ_pos f)
    simp only [downSearch, h0, Bool.false_eq_true, if_false]
    exact ih (pos - 1) fun k hk => by
      have := h (k + 1) (by omega)
      simpa [Nat.sub_sub, Nat.add_comm] using this

/-- Reverse complement preserves length. -/
theorem rcomp_length (s : List Char) : (rcomp s).length = s.length := by
  simp [rcomp]

/-! ## Claim theorems -/

/-- Claim C2: the orchestrator's call
`DataProcessing(log, args, run_start, fq1, fq2, targetmapper.targets)`
binds positionally against `(log, args, run_start, version, targeting,
fq1=None, fq2=None)`, so the constructed object's `version` holds the first
FASTQ reader, `targeting` holds the second FASTQ reader, `fq1` holds the
target mapping, and `fq2` is `None`. -/
theorem dataProcessing_positional_binding {α : Type}
    (log args run_start fq1_reader fq2_reader targets : α) :
    mainIndelProcessingCall log args run_start fq1_reader fq2_reader targets =
      some { log := log, args := args, run_start := run_start,
             version := fq1_reader, targeting := fq2_reader,
             fq1 := some targets, fq2 := none } := rfl

/-- Claim C3: every unique frequency-table entry gets exactly one
repair-pathway bucket, assigned by first match in the order HR; TsEJ
(deletion ≥ 4 and microhomology ≥ 2); NHEJ (deletion < 4 and insertion < 5);
non-microhomology deletion (deletion ≥ 4, microhomology < 2, insertion < 5);
large insertion (insertion ≥ 5); otherwise Other.  In particular deletion
size 6 with microhomology size 3 and no HR tag is bucketed TsEJ. -/
theorem scar_type_first_match (tag : String) (d m i : Nat) :
    (scar_type tag d m i = "HR" ∨ scar_type tag d m i = "TsEJ" ∨
      scar_type tag d m i = "NHEJ" ∨ scar_type tag d m i = "Non-MH Deletion" ∨
      scar_type tag d m i = "Insertion" ∨ scar_type tag d m i = "Other") ∧
    (scar_type tag d m i = "HR" ↔ tag = "HR") ∧
    (scar_type tag d m i = "TsEJ" ↔ tag ≠ "HR" ∧ 4 ≤ d ∧ 2 ≤ m) ∧
    (scar_type tag d m i = "NHEJ" ↔
      tag ≠ "HR" ∧ ¬(4 ≤ d ∧ 2 ≤ m) ∧ d < 4 ∧ i < 5) ∧
    (scar_type tag d m i = "Non-MH Deletion" ↔
      tag ≠ "HR" ∧ ¬(4 ≤ d ∧ 2 ≤ m) ∧ ¬(d < 4 ∧ i < 5) ∧ 4 ≤ d ∧ m < 2 ∧ i < 5) ∧
    (scar_type tag d m i = "Insertion" ↔
      tag ≠ "HR" ∧ ¬(4 ≤ d ∧ 2 ≤ m) ∧ ¬(d < 4 ∧ i < 5) ∧
        ¬(4 ≤ d ∧ m < 2 ∧ i < 5) ∧ 5 ≤ i) ∧
    (scar_type tag d m i = "Other" ↔
      tag ≠ "HR" ∧ ¬(4 ≤ d ∧ 2 ≤ m) ∧ ¬(d < 4 ∧ i < 5) ∧
        ¬(4 ≤ d ∧ m < 2 ∧ i < 5) ∧ ¬(5 ≤ i)) ∧
    scar_type "" 6 3 i = "TsEJ" := by
  refine ⟨?_, ?_, ?_, ?_, ?_, ?_, ?_, by simp [scar_type]⟩ <;>
    · unfold scar_type
      split_ifs <;> simp_all

/-- Claim C6: in both the frequency and the raw-data report rows, the
reported total deletion size equals the reported left-deletion length plus
the reported right-deletion length plus the reported microhomology length,
is never negative, and the reported insertion size equals the reported
insertion sequence's length. -/
theorem row_size_invariant (rev : Bool) (target_region : List Char) (s : SubList) :
    ((freq_row rev target_region s).delSize =
        (freq_row rev target_region s).lftDel + (freq_row rev target_region s).rtDel +
          (freq_row rev target_region s).microhomology.length) ∧
    (freq_row rev target_region s).insSize =
        (freq_row rev target_region s).insertion.length ∧
    (0 : ℤ) ≤ ((freq_row rev target_region s).delSize : ℤ) ∧
    ((raw_row rev target_region s).delSize =
        (raw_row rev target_region s).lftDel + (raw_row rev target_region s).rtDel +
          (raw_row rev target_region s).microhomology.length) ∧
    (raw_row rev target_region s).insSize =
        (raw_row rev target_region s).insertion.length ∧
    (0 : ℤ) ≤ ((raw_row rev target_region s).delSize : ℤ) := by
  cases rev <;> simp [freq_row, raw_row, rcomp_length] <;> omega

/-- Claim C1, counterexample: with 10 passing-filter reads, 2 no-junction
reads and 3 no-cut reads, the code reports a frequency of `count/(10-3)`,
not the claimed `count/(10-2-3)`. -/
theorem key_frequency_counterexample :
    key_frequency ⟨10, 2, 3⟩ 1 = 1 / 7 ∧ spec_key_frequency ⟨10, 2, 3⟩ 1 = 1 / 5 ∧
      key_frequency ⟨10, 2, 3⟩ 1 ≠ spec_key_frequency ⟨10, 2, 3⟩ 1 := by
  norm_num [key_frequency, spec_key_frequency]

/-- Claim C1, amended: the reported frequency of a unique row equals its
event count divided by (passing-filter reads minus the no-cut-evidence
count); the no-junction count is not part of this denominator. -/
theorem key_frequency_denominator (sd : SummaryData) (key_count : Nat)
    (h : (sd.passingFilters : ℤ) - (sd.noCut : ℤ) ≠ 0) :
    key_frequency sd key_count =
        (key_count : ℚ) / ((sd.passingFilters : ℚ) - (sd.noCut : ℚ)) ∧
      key_frequency sd key_count * ((sd.passingFilters : ℚ) - (sd.noCut : ℚ)) =
        (key_count : ℚ) := by
  have hq : ((sd.passingFilters : ℚ) - (sd.noCut : ℚ)) ≠ 0 := by
    have h2 : (((sd.passingFilters : ℤ) - (sd.noCut : ℤ) : ℤ) : ℚ) ≠ 0 :=
      Int.cast_ne_zero.mpr h
    push_cast at h2
    exact h2
  refine ⟨by simp [key_frequency, h], ?_⟩
  simp only [key_frequency, h, if_false]
  field_simp

/-- Witness for `key_frequency_denominator` at the counterexample library. -/
theorem key_frequency_denominator_witness :
    key_frequency ⟨10, 2, 3⟩ 1 = (1 : ℚ) / 7 := by
  have h := key_frequency_denominator ⟨10, 2, 3⟩ 1 (by norm_num)
  rw [h.1]
  norm_num

/-- Claim C9, counterexample: in a library whose frequency denominator is
zero (one passing read, one no-cut read), the frequency column is emitted as
the number `0`, not as the not-a-number marker. -/
theorem frequency_cell_zero_denominator_counterexample :
    frequency_cell ⟨1, 0, 1⟩ 1 = .num 0 ∧ frequency_cell ⟨1, 0, 1⟩ 1 ≠ ReportCell.nan := by
  refine ⟨by simp [frequency_cell, key_frequency], by simp [frequency_cell]⟩

/-- Claim C9, amended: the corpus-summary cut fraction and repair-pathway
fractions are emitted as the not-a-number marker when their denominator is
zero and no division error is raised; the per-library frequency column with
a zero denominator is instead emitted as the number `0`. -/
theorem zero_denominator_cells (bucket_count key_count n : Nat) (cut : ℤ) :
    cut_fraction_cell cut 0 = .nan ∧
      pathway_fraction_cell bucket_count 0 = .nan ∧
      pathway_fraction_cell bucket_count (cut_count ⟨n, 0, n⟩) = .nan ∧
      frequency_cell ⟨n, 0, n⟩ key_count = .num 0 := by
  refine ⟨by simp [cut_fraction_cell], by simp [pathway_fraction_cell], ?_, ?_⟩
  · simp [pathway_fraction_cell, cut_count]
  · simp [frequency_cell, key_frequency]

/-- Claim C4: when the working guide occurs in the target region (first
occurrence at `p`, inside the scanned range), the cutsite is 3 nucleotides
upstream of the occurrence's 3' end on a forward-strand locus
(`rt_position - 3`) and 3 nucleotides downstream of the occurrence's start
on a reverse-strand locus (`lft_position + 3`, the occurrence being that of
the reverse-complemented guide). -/
theorem cutsite_search_offsets (target_region sgrna : List Char) (p q : Nat)
    (hf1 : pySlice target_region p (p + sgrna.length) = sgrna)
    (hf2 : ∀ j < p, pySlice target_region j (j + sgrna.length) ≠ sgrna)
    (hf3 : p < (target_region.length - 1) - sgrna.length)
    (hr1 : pySlice target_region q (q + sgrna.length) = rcomp sgrna)
    (hr2 : ∀ j < q, pySlice target_region j (j + sgrna.length) ≠ rcomp sgrna)
    (hr3 : q < (target_region.length - 1) - sgrna.length) :
    cutsite_search target_region sgrna false = .ok (p + sgrna.length - 3) ∧
      cutsite_search target_region sgrna true = .ok (q + 3) := by
  constructor
  · have hfind := findFirstIdx_eq_some
      (fun l => pySlice target_region l (l + sgrna.length) == sgrna)
      ((target_region.length - 1) - sgrna.length) p 0 hf3
      (by simpa using hf1)
      (fun j hj => by simpa using hf2 j hj)
    simp only [Nat.zero_add] at hfind
    simp [cutsite_search, hfind]
  · have hfind := findFirstIdx_eq_some
      (fun l => pySlice target_region l (l + sgrna.length) == rcomp sgrna)
      ((target_region.length - 1) - sgrna.length) q 0 hr3
      (by simpa using hr1)
      (fun j hj => by simpa using hr2 j hj)
    simp only [Nat.zero_add] at hfind
    simp [cutsite_search, hfind]

set_option maxRecDepth 4000 in
/-- Witness for `cutsite_search_offsets`: the spec §8 scenario, an 8-nt
guide matching a 200-nt forward-strand region exactly at offset 90 yields
cutsite 95 (and, the guide being its own reverse complement, the
reverse-strand convention yields 93). -/
theorem cutsite_search_offsets_witness :
    cutsite_search exRegion exGuide false = .ok 95 ∧
      cutsite_search exRegion exGuide true = .ok 93 := by
  have h := cutsite_search_offsets exRegion exGuide 90 90
    (by decide) (by decide) (by decide) (by decide) (by decide) (by decide)
  simpa using h

/-- Claim C5: index resolution tries candidates in manifest order and
accepts the first whose left and right mismatch counts are both at or below
the platform threshold (1 for Illumina, 3 for Ramsden), regardless of any
later candidate's mismatch counts; when no candidate is within threshold the
read is counted as unidentified and no error is raised. -/
theorem index_matching_first_match (platform : String) (obsLeft obsRight : List Char) :
    indexMismatchLimit "Illumina" = 1 ∧ indexMismatchLimit "Ramsden" = 3 ∧
    (∀ (d₁ : List IndexRecord) (r : IndexRecord) (d₂ : List IndexRecord),
      match_maker r.leftIndex obsLeft ≤ indexMismatchLimit platform →
      match_maker r.rightIndex obsRight ≤ indexMismatchLimit platform →
      (∀ e ∈ d₁, ¬(match_maker e.leftIndex obsLeft ≤ indexMismatchLimit platform ∧
          match_maker e.rightIndex obsRight ≤ indexMismatchLimit platform)) →
      index_matching platform (d₁ ++ r :: d₂) obsLeft obsRight = some r) ∧
    (∀ (d : List IndexRecord) (u : Nat),
      (∀ e ∈ d, ¬(match_maker e.leftIndex obsLeft ≤ indexMismatchLimit platform ∧
          match_maker e.rightIndex obsRight ≤ indexMismatchLimit platform)) →
      index_matching platform d obsLeft obsRight = none ∧
        unidentified_after (index_matching platform d obsLeft obsRight) u = u + 1) := by
  refine ⟨by decide, by decide, ?_, ?_⟩
  · intro d₁ r d₂ hL hR hskip
    unfold index_matching
    induction d₁ with
    | nil =>
      simp only [List.nil_append]
      exact List.find?_cons_of_pos _ (by simp [hL, hR])
    | cons a t ih =>
      have ha := hskip a (List.mem_cons_self a t)
      simp only [List.cons_append]
      rw [List.find?_cons_of_neg _ (by simpa using ha)]
      exact ih fun e he => hskip e (List.mem_cons_of_mem a he)
  · intro d u hnone
    have hfind : index_matching platform d obsLeft obsRight = none := by
      unfold index_matching
      exact List.find?_eq_none.mpr fun e he => by simpa using hnone e he
    exact ⟨hfind, by simp [unidentified_after, hfind]⟩

/-- Witness for `index_matching_first_match`: the manifest-first candidate
`exIdxA` (one mismatch) wins over the later `exIdxB` (zero mismatches), and
an out-of-threshold manifest yields no match and one more unidentified
read. -/
theorem index_matching_first_match_witness :
    index_matching "Illumina" [exIdxA, exIdxB] exObsLeft exObsRight = some exIdxA ∧
      match_maker exIdxB.leftIndex exObsLeft < match_maker exIdxA.leftIndex exObsLeft ∧
      index_matching "Illumina" [exIdxC] exObsLeft exObsRight = none ∧
      unidentified_after (index_matching "Illumina" [exIdxC] exObsLeft exObsRight) 5 = 6 := by
  have h := index_matching_first_match "Illumina" exObsLeft exObsRight
  have h2 := h.2.2.2 [exIdxC] 5 (by decide)
  exact ⟨h.2.2.1 [] exIdxA [exIdxB] (by decide) (by decide) (by simp), by decide,
    h2.1, h2.2⟩

/-- Claim C7: when no 7-nt window of read 1's scanned suffix positions
exactly matches a window of the reverse-complemented read 2 inside the
bounded search region, the consensus builder returns the empty sequence, the
read is counted under the failed-consensus-creation counter
(`summary_data[7][1]`), and it is never classified; the per-read step is
total, so the run is not aborted. -/
theorem no_overlap_consensus_fails (n_limit : ℚ) (minimum_length : Nat)
    (classify : List Char → Option SubList) (c : ReadCounters)
    (left_seq right_seq : List Char)
    (h : ∀ pos < left_seq.length - 6, 25 < pos →
      ∀ l < right_seq.length - 32,
        pySlice left_seq pos (pos + 7) ≠ pySlice (rcomp right_seq) l (l + 7)) :
    simple_consensus left_seq right_seq = [] ∧
      processRead n_limit minimum_length classify c left_seq right_seq =
        ({ c with consensusFail := c.consensusFail + 1 }, none) := by
  have hdown : downSearch
      (fun pos => (findFirstIdx (fun l =>
          pySlice left_seq pos (pos + 7) == pySlice (rcomp right_seq) l (l + 7))
        0 ((right_seq.length - 25) - 7)).isSome)
      (left_seq.length - 7) (left_seq.length - 32) = none := by
    apply downSearch_eq_none
    intro k hk
    have hinner : findFirstIdx (fun l =>
        pySlice left_seq (left_seq.length - 7 - k) (left_seq.length - 7 - k + 7) ==
          pySlice (rcomp right_seq) l (l + 7)) 0 ((right_seq.length - 25) - 7) = none := by
      apply findFirstIdx_eq_none
      intro j hj
      have hne := h (left_seq.length - 7 - k) (by omega) (by omega) j (by omega)
      simpa using hne
    simp [hinner]
  have hmain : simple_consensus left_seq right_seq = [] := by
    unfold simple_consensus
    simp only []
    rw [hdown]
  exact ⟨hmain, by simp [processRead, hmain]⟩

/-- Witness for `no_overlap_consensus_fails`: a poly-A read 1 and poly-C
read 2 share no 7-nt overlap window, so consensus creation fails, the
failed-consensus counter is bumped, and no classification is produced. -/
theorem no_overlap_consensus_fails_witness :
    simple_consensus exLeftRead exRightRead = [] ∧
      processRead 0 0 (fun _ => none) ⟨0, 0, 0⟩ exLeftRead exRightRead =
        ({ passing := 0, filteredShortN := 0, consensusFail := 1 }, none) :=
  no_overlap_consensus_fails 0 0 (fun _ => none) ⟨0, 0, 0⟩ exLeftRead exRightRead
    (by decide)

/-- Claim C8: frequency-table accumulation is content-addressed — a scar
tuple whose key is absent is appended with count 1, and a second tuple with
identical (left-deletion, right-deletion, insertion, microhomology, tag)
fields increments the count stored at the first tuple's key, leaving the
stored payload and the table shape unchanged. -/
theorem freq_table_content_addressed :
    (∀ (d : List (String × Nat × SubList)) (s : SubList),
      (∀ e ∈ d, e.1 ≠ freq_key s) →
      freqDictInsert d s = d ++ [(freq_key s, 1, s)]) ∧
    (∀ (d₁ d₂ : List (String × Nat × SubList)) (n : Nat) (t s s' : SubList),
      s'.lftDel = s.lftDel → s'.rtDel = s.rtDel → s'.insertion = s.insertion →
      s'.microhomology = s.microhomology → s'.tag = s.tag →
      (∀ e ∈ d₁, e.1 ≠ freq_key s) → (∀ e ∈ d₂, e.1 ≠ freq_key s) →
      freqDictInsert (d₁ ++ (freq_key s, n, t) :: d₂) s' =
        d₁ ++ (freq_key s, n + 1, t) :: d₂) := by
  constructor
  · intro d s hnew
    have hfind : (d.find? (fun e => e.1 == freq_key s)) = none :=
      List.find?_eq_none.mpr fun e he => by simpa using hnew e he
    simp [freqDictInsert, hfind]
  · intro d₁ d₂ n t s s' h1 h2 h3 h4 h5 hk₁ hk₂
    have hkey : freq_key s' = freq_key s := by
      simp [freq_key, h1, h2, h3, h4, h5]
    have hd₁ : (d₁.find? (fun e => e.1 == freq_key s)) = none :=
      List.find?_eq_none.mpr fun e he => by simpa using hk₁ e he
    have hfind : ((d₁ ++ (freq_key s, n, t) :: d₂).find?
        (fun e => e.1 == freq_key s)).isSome = true := by
      rw [List.find?_append, hd₁]
      simp [List.find?_cons_of_pos]
    have hmap₁ : ∀ e ∈ d₁,
        (if e.1 == freq_key s then (e.1, e.2.1 + 1, e.2.2) else e) = e := by
      intro e he
      rw [if_neg (by simpa using hk₁ e he)]
    have hmap₂ : ∀ e ∈ d₂,
        (if e.1 == freq_key s then (e.1, e.2.1 + 1, e.2.2) else e) = e := by
      intro e he
      rw [if_neg (by simpa using hk₂ e he)]
    simp only [freqDictInsert, hkey, hfind, if_true, List.map_append, List.map_cons]
    rw [List.map_congr_left hmap₁, List.map_congr_left hmap₂]
    simp

/-- Witness for `freq_table_content_addressed`: the first occurrence of
`exScar` creates the row with count 1; the identically-keyed `exScar2`
(different junctions) then increments that row's count to 2 without adding
a row. -/
theorem freq_table_content_addressed_witness :
    freqDictInsert [] exScar = [(freq_key exScar, 1, exScar)] ∧
      freqDictInsert [(freq_key exScar, 1, exScar)] exScar2 =
        [(freq_key exScar, 2, exScar)] := by
  have h := freq_table_content_addressed
  refine ⟨h.1 [] exScar (by simp), ?_⟩
  have h2 := h.2 [] [] 1 exScar exScar exScar2 rfl rfl rfl rfl rfl (by simp) (by simp)
  simpa using h2

/-- Errors escaping `process_library` are exactly the `SystemExit(1)` of
`cutsite_search`. -/
theorem process_library_ok_or_exit_one (n_limit : ℚ) (minimum_length : Nat)
    (classify : List Char → Option SubList) (lib : Library) :
    (∃ table, process_library n_limit minimum_length classify lib = .ok table) ∨
      process_library n_limit minimum_length classify lib = .error 1 := by
  unfold process_library cutsite_search
  cases hfind : findFirstIdx
      (fun l => pySlice lib.target_region l (l + lib.sgrna.length) ==
        (if lib.reverse_strand then rcomp lib.sgrna else lib.sgrna))
      0 ((lib.target_region.length - 1) - lib.sgrna.length) with
  | none => right; simp [hfind]
  | some l =>
    left
    simp only [hfind]
    exact ⟨_, rfl⟩

/-- Claim C10: when the working guide does not occur in the fetched target
region, `cutsite_search` raises `SystemExit(1)`; the library worker aborts
before producing any frequency table, and a run containing that library
aborts as a whole with the non-zero exit value 1. -/
theorem guide_not_found_aborts_run (n_limit : ℚ) (minimum_length : Nat)
    (classify : List Char → Option SubList) (lib : Library)
    (h : ∀ j < lib.target_region.length,
      pySlice lib.target_region j (j + lib.sgrna.length) ≠
        (if lib.reverse_strand then rcomp lib.sgrna else lib.sgrna)) :
    cutsite_search lib.target_region lib.sgrna lib.reverse_strand = .error 1 ∧
      process_library n_limit minimum_length classify lib = .error 1 ∧
      ∀ libs, lib ∈ libs →
        process_all_libraries n_limit minimum_length classify libs = .error 1 := by
  have hcut : cutsite_search lib.target_region lib.sgrna lib.reverse_strand = .error 1 := by
    unfold cutsite_search
    simp only []
    rw [findFirstIdx_eq_none _ _ _ fun k hk => by simpa using h k (by omega)]
  have hlib : process_library n_limit minimum_length classify lib = .error 1 := by
    simp [process_library, hcut]
  refine ⟨hcut, hlib, ?_⟩
  intro libs hmem
  induction libs with
  | nil => cases hmem
  | cons a rest ih =>
    rcases List.mem_cons.mp hmem with rfl | hmem'
    · simp [process_all_libraries, hlib]
    · rcases process_library_ok_or_exit_one n_limit minimum_length classify a with
        ⟨table, ht⟩ | he
      · simp [process_all_libraries, ht, ih hmem']
      · simp [process_all_libraries, he]

/-- Witness for `guide_not_found_aborts_run`: a library whose guide is
absent from its region makes both the library worker and the whole run
return exit value 1, with no frequency table produced. -/
theorem guide_not_found_aborts_run_witness :
    process_library 0 0 (fun _ => none) exBadLib = .error 1 ∧
      process_all_libraries 0 0 (fun _ => none) [exBadLib] = .error 1 := by
  have h := guide_not_found_aborts_run 0 0 (fun _ => none) exBadLib (by decide)
  exact ⟨h.2.1, h.2.2 [exBadLib] (by simp)⟩

end ScarMapper
